import Mathlib

/-!
# Verification of `tl::function_ref` (src/function_ref.hpp)

A shallow embedding of the single-header non-owning callable reference.
The C++ class `function_ref<R(Args...)>` holds two fields:

  * `void *obj_ = nullptr;`                    — type-erased address of the bound callable
  * `R (*callback_)(void *, Args...) = nullptr;` — trampoline function pointer

We model addresses as `Nat`, null pointers as `Option.none`, and the program
memory as a map from addresses to the callable object (of the fixed signature
`α → ρ`) living there.  The trampoline is a function that, given the memory and
the stored address, re-interprets the address as the bound callable and invokes
it — exactly what the generated C++ lambda does with its `reinterpret_cast`.
Multi-argument signatures are represented by letting `α` be a product type.
-/

/-- Type-erased object addresses (`void *` values that point at an object).
The C++ null pointer is modelled as `none` in `Option Addr`. -/
abbrev Addr := Nat

/-- The external memory: the callable object of signature `α → ρ` living at
each address.  The referenced callable's lifetime is managed externally, so the
memory is a parameter of invocation, not part of the reference. -/
abbrev Mem (α ρ : Type) := Addr → (α → ρ)

/-- detail::invoke (src/function_ref.hpp:47-53): for a non-member callable it
forwards the call directly, `f(args...)`.  (The member-pointer overload at
lines 38-45 dispatches through `std::mem_fn`; in this embedding callables of a
fixed signature are uniformly functions, so invocation is direct.) -/
def detailInvoke {α ρ : Type} (f : α → ρ) (a : α) : ρ := f a

/-- The state of one `function_ref<R(Args...)>` object
(src/function_ref.hpp:138-140): the two pointer fields.  `obj_ = none` models
`obj_ == nullptr`; `callback_ = none` models a null trampoline pointer. -/
structure FunctionRef (α ρ : Type) where
  obj_ : Option Addr
  callback_ : Option (Mem α ρ → Addr → α → ρ)

/-- Default constructor (src/function_ref.hpp:89 together with the member
initializers at lines 139-140): both fields null. -/
def FunctionRef.mkDefault (α ρ : Type) : FunctionRef α ρ :=
  { obj_ := none, callback_ := none }

/-- Constructor from `std::nullptr_t` (src/function_ref.hpp:90): delegates to
the default constructor. -/
def FunctionRef.mkNullptr (α ρ : Type) : FunctionRef α ρ :=
  FunctionRef.mkDefault α ρ

/-- The trampoline generated by the converting constructor
(src/function_ref.hpp:99-104): cast the stored address back to the bound
callable's type, then invoke through `detail::invoke` with the arguments. -/
def trampolineCtor (α ρ : Type) : Mem α ρ → Addr → α → ρ :=
  fun mem obj args => detailInvoke (mem obj) args

/-- Converting constructor from a callable (src/function_ref.hpp:93-105):
stores the address of the callable (`std::addressof(f)`, necessarily a real
object address, hence `some addr`) and installs the generated trampoline. -/
def FunctionRef.mkFromCallable (α ρ : Type) (addr : Addr) : FunctionRef α ρ :=
  { obj_ := some addr, callback_ := some (trampolineCtor α ρ) }

/-- Copy constructor (src/function_ref.hpp:91, `= default`): copies both
fields. -/
def FunctionRef.copy {α ρ : Type} (rhs : FunctionRef α ρ) : FunctionRef α ρ :=
  { obj_ := rhs.obj_, callback_ := rhs.callback_ }

/-- Copy assignment (src/function_ref.hpp:107-110): assigns both fields from
`rhs`.  The body contains no `return` statement although the function is
declared to return `function_ref &`, so control flows off the end and no
reference is produced; the second component models the produced result
(`none` = no value returned). -/
def FunctionRef.assignCopy {α ρ : Type} (self rhs : FunctionRef α ρ) :
    FunctionRef α ρ × Option Unit :=
  ({ self with obj_ := rhs.obj_, callback_ := rhs.callback_ }, none)

/-- Assignment from `std::nullptr_t` (src/function_ref.hpp:111-114): nulls both
fields.  Like the other assignment operators the body has no `return`
statement (second component `none`). -/
def FunctionRef.assignNullptr {α ρ : Type} (self : FunctionRef α ρ) :
    FunctionRef α ρ × Option Unit :=
  ({ self with obj_ := none, callback_ := none }, none)

/-- The trampoline generated by the callable-assignment operator
(src/function_ref.hpp:121-124): cast the stored address back and invoke via
`detail::invoke` — the same behavior as the constructor's trampoline, though in
C++ it is a distinct generated function. -/
def trampolineAssign (α ρ : Type) : Mem α ρ → Addr → α → ρ :=
  fun mem obj args => detailInvoke (mem obj) args

/-- Assignment from a callable (src/function_ref.hpp:116-125): stores the
address of the callable and installs the generated trampoline.  No `return`
statement in the body (second component `none`). -/
def FunctionRef.assignCallable {α ρ : Type} (self : FunctionRef α ρ)
    (addr : Addr) : FunctionRef α ρ × Option Unit :=
  ({ self with obj_ := some addr, callback_ := some (trampolineAssign α ρ) },
   none)

/-- `explicit operator bool()` (src/function_ref.hpp:132): `obj_ != nullptr`. -/
def FunctionRef.toBool {α ρ : Type} (f : FunctionRef α ρ) : Bool :=
  f.obj_.isSome

/-- `operator()` (src/function_ref.hpp:134-136): `callback_(obj_, args...)`.
Calling through a null `callback_`, or letting the trampoline dereference a
null `obj_`, is undefined behavior, modelled as `none`. -/
def FunctionRef.call {α ρ : Type} (f : FunctionRef α ρ) (mem : Mem α ρ)
    (a : α) : Option ρ :=
  match f.callback_ with
  | none => none
  | some cb =>
    match f.obj_ with
    | none => none
    | some o => some (cb mem o a)

/-!
## Swap

Member `swap` mutates two `function_ref` objects in place and the two objects
may alias (`a.swap(a)`), so we model it over a store of `function_ref` objects
indexed by `Nat`, executing `std::swap` on each field sequentially with the
usual temporary (`tmp = x; x = y; y = tmp`).
-/

/-- A store of `function_ref` objects: the state of all reference objects the
caller holds, indexed by object identity. -/
abbrev RefStore (α ρ : Type) := Nat → FunctionRef α ρ

/-- `std::swap(obj_, rhs.obj_)` (first statement of src/function_ref.hpp:128),
executed on the store where `this` is object `i` and `rhs` is object `j`:
`tmp = i.obj_; i.obj_ = j.obj_; j.obj_ = tmp`. -/
def stdSwapObj {α ρ : Type} (s : RefStore α ρ) (i j : Nat) : RefStore α ρ :=
  let tmp := (s i).obj_
  let s1 := Function.update s i { s i with obj_ := (s j).obj_ }
  Function.update s1 j { s1 j with obj_ := tmp }

/-- `std::swap(callback_, rhs.callback_)` (src/function_ref.hpp:129), executed
on the store: `tmp = i.callback_; i.callback_ = j.callback_;
j.callback_ = tmp`. -/
def stdSwapCb {α ρ : Type} (s : RefStore α ρ) (i j : Nat) : RefStore α ρ :=
  let tmp := (s i).callback_
  let s1 := Function.update s i { s i with callback_ := (s j).callback_ }
  Function.update s1 j { s1 j with callback_ := tmp }

/-- Member `swap` (src/function_ref.hpp:127-130): swap `obj_`, then swap
`callback_`, between objects `i` (`this`) and `j` (`rhs`). -/
def memberSwap {α ρ : Type} (s : RefStore α ρ) (i j : Nat) : RefStore α ρ :=
  stdSwapCb (stdSwapObj s i j) i j

/-- Free-function `swap` (src/function_ref.hpp:143-147): `lhs.swap(rhs)`. -/
def freeSwap {α ρ : Type} (s : RefStore α ρ) (lhs rhs : Nat) : RefStore α ρ :=
  memberSwap s lhs rhs

/-!
## Null-comparison operators

The four operators at src/function_ref.hpp:149-171 are each written as
`return f == nullptr;` (resp. `!=`), which re-invokes a null-comparison
operator rather than inspecting `obj_`.  We model the recursion with an
explicit depth bound: `opEqNull fuel f` is the result the computation produces
within `fuel` nested calls (`none` = still no result).
-/

/-- `operator==(const function_ref&, nullptr_t)` (src/function_ref.hpp:149-153):
its body `return f == nullptr;` re-invokes this very operator. -/
def opEqNull {α ρ : Type} : Nat → FunctionRef α ρ → Option Bool
  | 0, _ => none
  | fuel + 1, f => opEqNull fuel f

/-- `operator==(nullptr_t, const function_ref&)` (src/function_ref.hpp:155-159):
its body `return f == nullptr;` invokes the reference-on-the-left overload. -/
def opNullEq {α ρ : Type} : Nat → FunctionRef α ρ → Option Bool
  | 0, _ => none
  | fuel + 1, f => opEqNull fuel f

/-- `operator!=(const function_ref&, nullptr_t)` (src/function_ref.hpp:161-165):
its body `return f != nullptr;` re-invokes this very operator. -/
def opNeNull {α ρ : Type} : Nat → FunctionRef α ρ → Option Bool
  | 0, _ => none
  | fuel + 1, f => opNeNull fuel f

/-- `operator!=(nullptr_t, const function_ref&)` (src/function_ref.hpp:167-171):
its body `return f != nullptr;` invokes the reference-on-the-left overload. -/
def opNullNe {α ρ : Type} : Nat → FunctionRef α ρ → Option Bool
  | 0, _ => none
  | fuel + 1, f => opNeNull fuel f

/-!
## The invocability trait

`detail::is_invocable_r` (src/function_ref.hpp:72-81) is compile-time type
machinery; we embed it over codes for C++ types.  A candidate callable type is
described by its `invoke_result`: for each ordered argument-type list, either
the type of `detail::invoke(declval<F>(), declval<Us>()...)` (when that
expression is well-formed) or `none` (substitution failure: `invoke_result_impl`
keeps its primary form with no `type` member, src/function_ref.hpp:56-63). -/

/-- Codes for C++ types. -/
abbrev TyCode := Nat

/-- A candidate callable type `F`, described by `detail::invoke_result`
(src/function_ref.hpp:56-69): `invokeResult args = some T` when `F` is
invocable with arguments of types `args` and the invoke expression has type
`T`; `none` when the invoke expression is ill-formed. -/
structure CallableTy where
  invokeResult : List TyCode → Option TyCode

/-- `detail::is_invocable_r_impl` (src/function_ref.hpp:72-76): the primary
template is `std::false_type`, the `true` specialization is `std::true_type` —
i.e. the boolean parameter is the verdict. -/
def is_invocable_r_impl (b : Bool) : Bool := b

/-- `detail::is_invocable_r` (src/function_ref.hpp:78-81): instantiates the
impl with `std::is_same<invoke_result_t<F, Args...>, R>::value`.  When
`invoke_result_t<F, Args...>` is ill-formed, the substitution failure is
swallowed in the SFINAE context where the trait constrains overloads: the
candidate is not satisfied (`false`) rather than a hard error. -/
def is_invocable_r (R : TyCode) (F : CallableTy) (args : List TyCode) : Bool :=
  match F.invokeResult args with
  | none => false
  | some T => is_invocable_r_impl (decide (T = R))

/-!
## Reachable states

Every way the public interface can produce a `function_ref` value: the three
constructors, copy construction, the three assignment operators, and member
swap (of two distinct objects, or of an object with itself).
-/

/-- The two-element store holding `a` as object `0` and `b` as object `1`. -/
def pairStore {α ρ : Type} (a b : FunctionRef α ρ) : RefStore α ρ :=
  fun n => if n = 0 then a else b

/-- The `function_ref` values producible through the public interface of
src/function_ref.hpp:87-141 (each constructor of this predicate is one
operation of the class). -/
inductive Reachable {α ρ : Type} : FunctionRef α ρ → Prop where
  | mkDefault : Reachable (FunctionRef.mkDefault α ρ)
  | mkNullptr : Reachable (FunctionRef.mkNullptr α ρ)
  | mkFromCallable (addr : Addr) :
      Reachable (FunctionRef.mkFromCallable α ρ addr)
  | copy (f : FunctionRef α ρ) : Reachable f → Reachable f.copy
  | assignCopy (a b : FunctionRef α ρ) :
      Reachable a → Reachable b → Reachable (a.assignCopy b).1
  | assignNullptr (a : FunctionRef α ρ) :
      Reachable a → Reachable a.assignNullptr.1
  | assignCallable (a : FunctionRef α ρ) (addr : Addr) :
      Reachable a → Reachable (a.assignCallable addr).1
  | swapFst (a b : FunctionRef α ρ) :
      Reachable a → Reachable b → Reachable (memberSwap (pairStore a b) 0 1 0)
  | swapSnd (a b : FunctionRef α ρ) :
      Reachable a → Reachable b → Reachable (memberSwap (pairStore a b) 0 1 1)
  | swapSelf (a : FunctionRef α ρ) :
      Reachable a → Reachable (memberSwap (fun _ => a) 0 0 0)

/-!
## Helper lemmas about swap
-/

/-- After `i.swap(j)` with `i ≠ j`, object `i` holds `j`'s old fields. -/
lemma memberSwap_apply_fst {α ρ : Type} (s : RefStore α ρ) {i j : Nat}
    (h : i ≠ j) : memberSwap s i j i = s j := by
  simp [memberSwap, stdSwapObj, stdSwapCb, Function.update_apply, h, h.symm]

/-- After `i.swap(j)` with `i ≠ j`, object `j` holds `i`'s old fields. -/
lemma memberSwap_apply_snd {α ρ : Type} (s : RefStore α ρ) {i j : Nat}
    (h : i ≠ j) : memberSwap s i j j = s i := by
  simp [memberSwap, stdSwapObj, stdSwapCb, Function.update_apply, h, h.symm]

/-- `swap` does not touch any object other than its two operands. -/
lemma memberSwap_apply_other {α ρ : Type} (s : RefStore α ρ) {i j k : Nat}
    (hi : k ≠ i) (hj : k ≠ j) : memberSwap s i j k = s k := by
  simp [memberSwap, stdSwapObj, stdSwapCb, Function.update_apply, hi, hj]

/-- Self-swap `a.swap(a)` leaves the store unchanged: each field's
`std::swap` on an aliased pair writes the original value back. -/
lemma memberSwap_self {α ρ : Type} (s : RefStore α ρ) (i : Nat) :
    memberSwap s i i = s := by
  funext k
  by_cases hk : k = i
  · subst hk
    simp [memberSwap, stdSwapObj, stdSwapCb, Function.update_apply]
  · simp [memberSwap, stdSwapObj, stdSwapCb, Function.update_apply, hk]

/-!
## Claim theorems
-/

/-- **C1**: for every callable `f` of the right signature living at address
`addr` (i.e. alive at that address in the current memory), constructing a
`function_ref` bound to it and invoking the reference via `operator()` with
arguments `a` yields exactly the result of invoking `f` on `a` directly. -/
theorem fr_call_eq_direct_call {α ρ : Type} (mem : Mem α ρ) (addr : Addr)
    (f : α → ρ) (hf : mem addr = f) (a : α) :
    (FunctionRef.mkFromCallable α ρ addr).call mem a = some (f a) := by
  subst hf; rfl

/-- Witness for `fr_call_eq_direct_call`: binding to the callable `x + 1` at
address `0` and invoking with `41` returns `42`. -/
theorem fr_call_eq_direct_call_witness :
    ((fun _ => fun x => x + 1 : Mem Nat Nat) 0 = fun x => x + 1) ∧
    (FunctionRef.mkFromCallable Nat Nat 0).call (fun _ => fun x => x + 1) 41 =
      some 42 :=
  ⟨rfl, fr_call_eq_direct_call (fun _ => fun x => x + 1) 0 (fun x => x + 1)
    rfl 41⟩

/-- **C2** (evidence of the defect): each of the four null-comparison
operators is written to call a null-comparison operator on the same operands
again, so no recursion depth ever produces a boolean value — the comparison
does not "return true exactly when `f` is empty", it never returns at all. -/
theorem null_comparison_never_produces_result {α ρ : Type} (fuel : Nat)
    (f : FunctionRef α ρ) :
    opEqNull fuel f = none ∧ opNullEq fuel f = none ∧
    opNeNull fuel f = none ∧ opNullNe fuel f = none := by
  induction fuel with
  | zero => exact ⟨rfl, rfl, rfl, rfl⟩
  | succ n ih =>
    simp only [opEqNull, opNullEq, opNeNull, opNullNe]
    exact ⟨ih.1, ih.1, ih.2.2.1, ih.2.2.1⟩

/-- **C3**: every reachable `function_ref` state satisfies the invariant
`obj_ == nullptr ↔ callback_ == nullptr`; every public operation preserves
it. -/
theorem reachable_inv {α ρ : Type} (f : FunctionRef α ρ) (h : Reachable f) :
    f.obj_ = none ↔ f.callback_ = none := by
  induction h with
  | mkDefault => exact ⟨fun _ => rfl, fun _ => rfl⟩
  | mkNullptr => exact ⟨fun _ => rfl, fun _ => rfl⟩
  | mkFromCallable addr => simp [FunctionRef.mkFromCallable]
  | copy f _ ih => exact ih
  | assignCopy a b _ _ _ ihb => exact ihb
  | assignNullptr a _ _ => exact ⟨fun _ => rfl, fun _ => rfl⟩
  | assignCallable a addr _ _ => simp [FunctionRef.assignCallable]
  | swapFst a b _ _ iha ihb =>
    rw [memberSwap_apply_fst _ (by decide : (0 : Nat) ≠ 1)]
    simpa [pairStore] using ihb
  | swapSnd a b _ _ iha ihb =>
    rw [memberSwap_apply_snd _ (by decide : (0 : Nat) ≠ 1)]
    simpa [pairStore] using iha
  | swapSelf a _ ih =>
    rw [memberSwap_self]
    exact ih

/-- Witness for `reachable_inv`: the state constructed from a callable at
address `3` is reachable and satisfies the invariant. -/
theorem reachable_inv_witness :
    (FunctionRef.mkFromCallable Nat Nat 3).obj_ = none ↔
      (FunctionRef.mkFromCallable Nat Nat 3).callback_ = none :=
  reachable_inv (FunctionRef.mkFromCallable Nat Nat 3)
    (Reachable.mkFromCallable 3)

/-- **C4** (evidence of the defect): copy assignment does copy both fields
from `b` into `a` (here: an empty reference assigned from one bound at
address `5`), but its body has no `return` statement, so it produces no value
for its declared `function_ref &` result — the claim's "yields a reference to
the assigned object `a`" fails (second component `none` instead of a returned
reference). -/
theorem assignCopy_copies_fields_but_returns_nothing :
    ((FunctionRef.mkDefault Nat Nat).assignCopy
        (FunctionRef.mkFromCallable Nat Nat 5)).1 =
      { obj_ := some 5, callback_ := some (trampolineCtor Nat Nat) } ∧
    ((FunctionRef.mkDefault Nat Nat).assignCopy
        (FunctionRef.mkFromCallable Nat Nat 5)).2 = none :=
  ⟨rfl, rfl⟩

/-- **C5**: swapping two distinct references exchanges both fields, so
invoking `i` after the swap behaves exactly as invoking `j` did before and
vice versa, and the free-function `swap` has the same effect as the member
`swap`.  (No invocation happens during the swap: `memberSwap` is defined by
field moves only and never consults the memory.) -/
theorem memberSwap_exchanges_behavior {α ρ : Type} (s : RefStore α ρ)
    (i j : Nat) (h : i ≠ j) (mem : Mem α ρ) (x : α) :
    memberSwap s i j i = s j ∧ memberSwap s i j j = s i ∧
    (memberSwap s i j i).call mem x = (s j).call mem x ∧
    (memberSwap s i j j).call mem x = (s i).call mem x ∧
    freeSwap s i j = memberSwap s i j := by
  refine ⟨memberSwap_apply_fst s h, memberSwap_apply_snd s h, ?_, ?_, rfl⟩
  · rw [memberSwap_apply_fst s h]
  · rw [memberSwap_apply_snd s h]

/-- Witness for `memberSwap_exchanges_behavior`: swapping objects `0` and `1`
of a concrete store, with the identity-at-every-address memory and argument
`3`. -/
theorem memberSwap_exchanges_behavior_witness :
    (0 : Nat) ≠ 1 ∧
    (memberSwap
        (pairStore (FunctionRef.mkFromCallable Nat Nat 7)
          (FunctionRef.mkDefault Nat Nat)) 0 1 0 =
      pairStore (FunctionRef.mkFromCallable Nat Nat 7)
        (FunctionRef.mkDefault Nat Nat) 1 ∧
    memberSwap
        (pairStore (FunctionRef.mkFromCallable Nat Nat 7)
          (FunctionRef.mkDefault Nat Nat)) 0 1 1 =
      pairStore (FunctionRef.mkFromCallable Nat Nat 7)
        (FunctionRef.mkDefault Nat Nat) 0 ∧
    (memberSwap
        (pairStore (FunctionRef.mkFromCallable Nat Nat 7)
          (FunctionRef.mkDefault Nat Nat)) 0 1 0).call (fun _ x => x) 3 =
      (pairStore (FunctionRef.mkFromCallable Nat Nat 7)
        (FunctionRef.mkDefault Nat Nat) 1).call (fun _ x => x) 3 ∧
    (memberSwap
        (pairStore (FunctionRef.mkFromCallable Nat Nat 7)
          (FunctionRef.mkDefault Nat Nat)) 0 1 1).call (fun _ x => x) 3 =
      (pairStore (FunctionRef.mkFromCallable Nat Nat 7)
        (FunctionRef.mkDefault Nat Nat) 0).call (fun _ x => x) 3 ∧
    freeSwap
        (pairStore (FunctionRef.mkFromCallable Nat Nat 7)
          (FunctionRef.mkDefault Nat Nat)) 0 1 =
      memberSwap
        (pairStore (FunctionRef.mkFromCallable Nat Nat 7)
          (FunctionRef.mkDefault Nat Nat)) 0 1) :=
  ⟨by decide,
   memberSwap_exchanges_behavior
     (pairStore (FunctionRef.mkFromCallable Nat Nat 7)
       (FunctionRef.mkDefault Nat Nat)) 0 1 (by decide) (fun _ x => x) 3⟩

/-- **C6**: assigning a new callable (living at `addr`) to an already-bound
reference rebinds both fields to the new callable: the stored target becomes
the new callable's address, invocation afterwards reaches exactly the
callable at `addr` (the result `some (mem addr x)` does not depend on the old
state `a`, so the old target is never reached), and the observable call
behavior equals that of a reference freshly constructed from the same
callable. -/
theorem assignCallable_rebinds {α ρ : Type} (a : FunctionRef α ρ)
    (addr : Addr) (mem : Mem α ρ) (x : α) :
    (a.assignCallable addr).1.obj_ = some addr ∧
    (a.assignCallable addr).1.callback_ = some (trampolineAssign α ρ) ∧
    (a.assignCallable addr).1.call mem x = some (mem addr x) ∧
    (a.assignCallable addr).1.call mem x =
      (FunctionRef.mkFromCallable α ρ addr).call mem x :=
  ⟨rfl, rfl, rfl, rfl⟩

/-- **C7**: default construction, nullptr construction and nullptr assignment
all yield the state with both fields null and false boolean conversion; in
general boolean conversion is true exactly when `obj_` is non-null. -/
theorem empty_states_and_bool_conversion {α ρ : Type}
    (a f : FunctionRef α ρ) :
    (FunctionRef.mkDefault α ρ).obj_ = none ∧
    (FunctionRef.mkDefault α ρ).callback_ = none ∧
    FunctionRef.mkNullptr α ρ = FunctionRef.mkDefault α ρ ∧
    a.assignNullptr.1.obj_ = none ∧
    a.assignNullptr.1.callback_ = none ∧
    (FunctionRef.mkDefault α ρ).toBool = false ∧
    (FunctionRef.mkNullptr α ρ).toBool = false ∧
    a.assignNullptr.1.toBool = false ∧
    (f.toBool = true ↔ f.obj_ ≠ none) := by
  refine ⟨rfl, rfl, rfl, rfl, rfl, rfl, rfl, rfl, ?_⟩
  simp [FunctionRef.toBool, Option.isSome_iff_ne_none]

/-- **C8**: the trait `detail::is_invocable_r` is satisfied exactly when the
candidate is invocable with the given argument types and the invocation
result type is exactly `R`; when the candidate is not invocable at all
(`invokeResult = none`, the substitution failure swallowed by the
`invoke_result` machinery), the trait evaluates to not-satisfied instead of
an error. -/
theorem is_invocable_r_iff_exact_result (R : TyCode) (F : CallableTy)
    (args : List TyCode) :
    (is_invocable_r R F args = true ↔ F.invokeResult args = some R) ∧
    (F.invokeResult args = none → is_invocable_r R F args = false) := by
  constructor
  · unfold is_invocable_r is_invocable_r_impl
    cases h : F.invokeResult args with
    | none => simp
    | some T => simp [decide_eq_true_iff]
  · intro h
    unfold is_invocable_r
    rw [h]

/-- Witness for `is_invocable_r_iff_exact_result`: a candidate invocable on
argument list `[0]` with result type `1` satisfies the trait for `R = 1`. -/
theorem is_invocable_r_iff_exact_result_witness :
    (is_invocable_r 1 ⟨fun l => if l = [0] then some 1 else none⟩ [0] = true ↔
      CallableTy.invokeResult ⟨fun l => if l = [0] then some 1 else none⟩ [0] =
        some 1) ∧
    (CallableTy.invokeResult ⟨fun l => if l = [0] then some 1 else none⟩ [0] =
        none →
      is_invocable_r 1 ⟨fun l => if l = [0] then some 1 else none⟩ [0] =
        false) :=
  is_invocable_r_iff_exact_result 1 ⟨fun l => if l = [0] then some 1 else none⟩
    [0]

/-- **C9**: a reference bound through the converting constructor or the
callable-assignment operator stores the address of the bound object itself,
which is never the null pointer, so the reference is always truthy — whatever
value the bound object holds (in particular a function-pointer variable whose
value is null still yields a truthy reference: `toBool` never consults the
memory). -/
theorem bound_ref_always_truthy {α ρ : Type} (addr : Addr)
    (a : FunctionRef α ρ) :
    (FunctionRef.mkFromCallable α ρ addr).toBool = true ∧
    (a.assignCallable addr).1.toBool = true :=
  ⟨rfl, rfl⟩

/-- **C10**: member swap is an involution — performing `i.swap(j)` twice
restores the whole store — and self-swap `i.swap(i)` leaves the store
unchanged. -/
theorem memberSwap_involutive_self_safe {α ρ : Type} (s : RefStore α ρ)
    (i j : Nat) :
    memberSwap (memberSwap s i j) i j = s ∧ memberSwap s i i = s := by
  refine ⟨?_, memberSwap_self s i⟩
  by_cases h : i = j
  · subst h
    rw [memberSwap_self, memberSwap_self]
  · funext k
    by_cases hki : k = i
    · subst hki
      rw [memberSwap_apply_fst _ h, memberSwap_apply_snd _ h]
    · by_cases hkj : k = j
      · subst hkj
        rw [memberSwap_apply_snd _ h, memberSwap_apply_fst _ h]
      · rw [memberSwap_apply_other _ hki hkj, memberSwap_apply_other _ hki hkj]
